import Mathlib

/-!
Verification of the data-gen batch pipeline (run.py, img_aug.py) against its
natural-language specification.

The Python source is shallowly embedded: pure helpers become Lean functions,
calls that may raise become `Option`/`Except` values, `sys.exit(msg)` becomes an
`Except.error msg`, and the filesystem and the process-wide random source are
passed in explicitly as oracles.  Machine integers are `Int` (Python ints are
unbounded), floats are modelled by `ℚ`.
-/

/-! ## Python string helpers

`pySplitChar sep s` models Python `str.split(sep)` for a one-character
separator: `"".split(',') = [""]`, `"a,,b".split(',') = ["a","","b"]`,
`"a,".split(',') = ["a",""]`. -/

def pySplitChar (sep : Char) : List Char → List (List Char)
  | [] => [[]]
  | c :: cs =>
    let r := pySplitChar sep cs
    if c = sep then [] :: r
    else
      match r with
      | [] => [[c]]
      | t :: ts => (c :: t) :: ts

/-- Model of Python `str.strip()` with no argument: drop whitespace from both
ends of the character list. -/
def pyTrim (cs : List Char) : List Char :=
  ((cs.dropWhile Char.isWhitespace).reverse.dropWhile Char.isWhitespace).reverse

/-- Value of a nonempty run of decimal digits; `none` if empty or if any
character is not a digit. -/
def digitsVal (cs : List Char) : Option ℕ :=
  if cs = [] then none
  else cs.foldl
    (fun acc c => acc.bind fun n => if c.isDigit then some (10 * n + (c.toNat - 48)) else none)
    (some 0)

/-- Model of Python `int(s)` on its common inputs: surrounding whitespace is
stripped, an optional single sign is allowed, then decimal digits; a
non-numeric string raises `ValueError`, modelled as `none`. -/
def pyInt (cs : List Char) : Option ℤ :=
  match pyTrim cs with
  | '-' :: ds => (digitsVal ds).map fun n => -(n : ℤ)
  | '+' :: ds => (digitsVal ds).map fun n => (n : ℤ)
  | ds => (digitsVal ds).map fun n => (n : ℤ)

/-- Model of Python `str.strip()` at the `String` level. -/
def pyStrip (s : String) : String := String.mk (pyTrim s.data)

/-- Model of Python `str.upper()`: uppercase each character (ASCII case
mapping). -/
def pyUpper (s : String) : String := String.mk (s.data.map Char.toUpper)

/-- Sequential `int()` over a token list, as the list comprehension
`[int(m) for m in margins]` evaluates it: the first failing conversion aborts
the whole comprehension with an exception (`none`). -/
def pyIntList : List (List Char) → Option (List ℤ)
  | [] => some []
  | t :: ts =>
    match pyInt t, pyIntList ts with
    | some v, some vs => some (v :: vs)
    | _, _ => none

/-! ## run.py: `parse_margins` (lines 21-33) -/

/-- Embedding of `parse_margins`:
```
margins = margin_str.split(',')
if len(margins) == 1:
    return [int(margins[0])] * 4
return [int(m) for m in margins]
``` -/
def parse_margins (margin_str : String) : Option (List ℤ) :=
  let margins := pySplitChar ',' margin_str.toList
  if margins.length = 1 then
    (pyInt (margins.getD 0 [])).map fun v => [v, v, v, v]
  else
    pyIntList margins

/-! ## run.py: `load_corpus` (lines 213-222)

The filesystem is an oracle mapping a path to `none` (no such file) or to the
decoded lines of the file (the `utf-8-sig` decoding having already stripped a
byte-order mark). -/

/-- Embedding of `load_corpus`: a missing file exits with an error; otherwise
the result is `[line.strip() for line in file if line.strip()]`. -/
def load_corpus (fs : String → Option (List String)) (corpus_file_path : String) :
    Except String (List String) :=
  match fs corpus_file_path with
  | none => .error ("[Error] Corpus file not found: " ++ corpus_file_path)
  | some lines => .ok ((lines.map pyStrip).filter fun l => l ≠ "")

/-! ## run.py: `load_fonts` (lines 192-210)

A filesystem entry is either a regular file or a directory together with its
children *in the order `os.scandir` enumerates them* (`Path.glob('*')` yields
entries in that arbitrary order and does not sort). -/

structure FsChild where
  name : String
  isFile : Bool
deriving DecidableEq, Repr

inductive FsEntry where
  | file : FsEntry
  | dir : List FsChild → FsEntry
deriving DecidableEq, Repr

/-- Embedding of `load_fonts`: prefixes `fonts/`, exits if the path does not
exist, returns the single file, or all regular files of the directory in
enumeration order, exiting if that list is empty. -/
def load_fonts (fs : String → Option FsEntry) (font_or_dir : String) :
    Except String (List String) :=
  let p := "fonts/" ++ font_or_dir
  match fs p with
  | none => .error ("[Error] Font path does not exist: " ++ font_or_dir)
  | some .file => .ok [p]
  | some (.dir children) =>
    let font_paths := (children.filter fun c => c.isFile).map fun c => p ++ "/" ++ c.name
    if font_paths.isEmpty then
      .error ("[Error] No font files found in directory: " ++ font_or_dir)
    else
      .ok font_paths

/-! ## run.py: configuration resolution (`main` steps 3-5, lines 333-344)

`Args` is the argparse namespace: every optional flag is `none` when the user
did not supply it, `store_true` flags are `Bool`.  `Config` is the YAML config
restricted to the sections and keys the override mapping of
`apply_command_line_overrides` touches. -/

structure Args where
  quick_start : Bool
  output_dir : Option String
  language : Option String
  corpus : Option String
  count : Option ℤ
  fonts : Option String
  size : Option ℤ
  color : Option String
  width : Option ℤ
  height : Option ℤ
  extension : Option String
  margins : Option String
  skew_angle : Option ℤ
  no_skew : Bool
  num_workers : Option ℤ
deriving DecidableEq, Repr

structure FileSettings where
  OUTPUT_DIR : String
  FONTS : String
  EXTENSION : String
deriving DecidableEq, Repr

structure TextSettings where
  LANGUAGE : String
  CORPUS : String
  SIZE : ℤ
  COLOR : String
  HEIGHT : ℤ
deriving DecidableEq, Repr

structure ImageFormatSettings where
  WIDTH : ℤ
  MARGINS : String
deriving DecidableEq, Repr

structure DistortionSettings where
  SKEW_ANGLE : ℤ
  RANDOM_SKEW : Bool
deriving DecidableEq, Repr

structure OtherSettings where
  COUNT : ℤ
  NUM_WORKERS : ℤ
deriving DecidableEq, Repr

structure Config where
  FILE_SETTINGS : FileSettings
  TEXT_SETTINGS : TextSettings
  IMAGE_FORMAT_SETTINGS : ImageFormatSettings
  DISTORTION_SETTINGS : DistortionSettings
  OTHER_SETTINGS : OtherSettings
deriving DecidableEq, Repr

/-- The corpus branch of `apply_quick_start_settings` (lines 249-256): it
rewrites `args.corpus` (and for the English sample also `args.language` and
`args.fonts`) when a sample corpus exists on disk. -/
def quick_start_corpus_update (exis : String → Bool) (a : Args) : Args :=
  if exis "texts/sample_chinese.txt" then
    { a with corpus := some "texts/sample_chinese.txt" }
  else if exis "texts/sample_english.txt" then
    { a with corpus := some "texts/sample_english.txt",
             language := some "en", fonts := some "en" }
  else a

/-- Embedding of `apply_quick_start_settings` (lines 241-256).  It mutates the
argparse namespace itself: `args.count = 100` overwrites whatever `--count`
supplied, and `args.num_workers = min(4, args.num_workers)` (taken because
`hasattr(args, 'num_workers')` is always true for an argparse namespace) raises
`TypeError` when `--num_workers` was not given, since `min(4, None)` is not
defined in Python 3. -/
def apply_quick_start_settings (exis : String → Bool) (args : Args) : Except String Args :=
  let args := { args with count := some 100 }
  match args.num_workers with
  | none => .error "TypeError: min() between int and NoneType"
  | some w => .ok (quick_start_corpus_update exis { args with num_workers := some (min 4 w) })

/-- Embedding of `apply_command_line_overrides` (lines 258-294): the
`override_mapping` loop writes every non-`None` argparse value into its config
slot, then the `no_skew` rule forces `SKEW_ANGLE = 0` and `RANDOM_SKEW = False`,
and a raw color triple is wrapped into `"(R,G,B)"` (only when `args.color` is
truthy, i.e. neither `None` nor the empty string). -/
def apply_command_line_overrides (args : Args) (cfg : Config) : Config :=
  let cfg := match args.output_dir with
    | some v => { cfg with FILE_SETTINGS := { cfg.FILE_SETTINGS with OUTPUT_DIR := v } }
    | none => cfg
  let cfg := match args.language with
    | some v => { cfg with TEXT_SETTINGS := { cfg.TEXT_SETTINGS with LANGUAGE := v } }
    | none => cfg
  let cfg := match args.corpus with
    | some v => { cfg with TEXT_SETTINGS := { cfg.TEXT_SETTINGS with CORPUS := v } }
    | none => cfg
  let cfg := match args.count with
    | some v => { cfg with OTHER_SETTINGS := { cfg.OTHER_SETTINGS with COUNT := v } }
    | none => cfg
  let cfg := match args.fonts with
    | some v => { cfg with FILE_SETTINGS := { cfg.FILE_SETTINGS with FONTS := v } }
    | none => cfg
  let cfg := match args.size with
    | some v => { cfg with TEXT_SETTINGS := { cfg.TEXT_SETTINGS with SIZE := v } }
    | none => cfg
  let cfg := match args.color with
    | some v => { cfg with TEXT_SETTINGS := { cfg.TEXT_SETTINGS with COLOR := v } }
    | none => cfg
  let cfg := match args.width with
    | some v => { cfg with IMAGE_FORMAT_SETTINGS := { cfg.IMAGE_FORMAT_SETTINGS with WIDTH := v } }
    | none => cfg
  let cfg := match args.height with
    | some v => { cfg with TEXT_SETTINGS := { cfg.TEXT_SETTINGS with HEIGHT := v } }
    | none => cfg
  let cfg := match args.extension with
    | some v => { cfg with FILE_SETTINGS := { cfg.FILE_SETTINGS with EXTENSION := v } }
    | none => cfg
  let cfg := match args.margins with
    | some v => { cfg with IMAGE_FORMAT_SETTINGS := { cfg.IMAGE_FORMAT_SETTINGS with MARGINS := v } }
    | none => cfg
  let cfg := match args.skew_angle with
    | some v => { cfg with DISTORTION_SETTINGS := { cfg.DISTORTION_SETTINGS with SKEW_ANGLE := v } }
    | none => cfg
  let cfg := match args.num_workers with
    | some v => { cfg with OTHER_SETTINGS := { cfg.OTHER_SETTINGS with NUM_WORKERS := v } }
    | none => cfg
  let cfg := if args.no_skew then
      { cfg with DISTORTION_SETTINGS :=
          { cfg.DISTORTION_SETTINGS with SKEW_ANGLE := 0, RANDOM_SKEW := false } }
    else cfg
  match args.color with
  | some c =>
    if c ≠ "" ∧ ¬ c.startsWith "(" then
      { cfg with TEXT_SETTINGS := { cfg.TEXT_SETTINGS with COLOR := "(" ++ c ++ ")" } }
    else cfg
  | none => cfg

/-- The fully-resolved parameter set the rest of `main` reads off `args` after
step 5's flattening loop. -/
structure Resolved where
  output_dir : String
  language : String
  corpus : String
  count : ℤ
  fonts : String
  size : ℤ
  color : String
  width : ℤ
  height : ℤ
  extension : String
  margins : String
  skew_angle : ℤ
  num_workers : ℤ
  random_skew : Bool
deriving DecidableEq, Repr

/-- Embedding of `main` step 5 (lines 340-344): every config value is copied
onto `args` only when the corresponding argparse attribute is absent or `None`,
so a non-`None` argparse attribute keeps its value (`Option.getD`), while keys
only the config defines (such as `RANDOM_SKEW`) always take the config value. -/
def flatten_config (args : Args) (cfg : Config) : Resolved :=
  { output_dir := args.output_dir.getD cfg.FILE_SETTINGS.OUTPUT_DIR
    language := args.language.getD cfg.TEXT_SETTINGS.LANGUAGE
    corpus := args.corpus.getD cfg.TEXT_SETTINGS.CORPUS
    count := args.count.getD cfg.OTHER_SETTINGS.COUNT
    fonts := args.fonts.getD cfg.FILE_SETTINGS.FONTS
    size := args.size.getD cfg.TEXT_SETTINGS.SIZE
    color := args.color.getD cfg.TEXT_SETTINGS.COLOR
    width := args.width.getD cfg.IMAGE_FORMAT_SETTINGS.WIDTH
    height := args.height.getD cfg.TEXT_SETTINGS.HEIGHT
    extension := args.extension.getD cfg.FILE_SETTINGS.EXTENSION
    margins := args.margins.getD cfg.IMAGE_FORMAT_SETTINGS.MARGINS
    skew_angle := args.skew_angle.getD cfg.DISTORTION_SETTINGS.SKEW_ANGLE
    num_workers := args.num_workers.getD cfg.OTHER_SETTINGS.NUM_WORKERS
    random_skew := cfg.DISTORTION_SETTINGS.RANDOM_SKEW }

/-- `main` steps 3-5 in order: quick-start preset (if requested, and possibly
raising), then command-line overrides into the config, then the flattening of
the config back onto the argparse namespace. -/
def resolve_settings (exis : String → Bool) (args : Args) (cfg : Config) :
    Except String Resolved :=
  match (if args.quick_start then apply_quick_start_settings exis args else .ok args) with
  | .error e => .error e
  | .ok args => .ok (flatten_config args (apply_command_line_overrides args cfg))

/-! ## run.py: job construction (`main` step 13, lines 438-465) -/

/-- One parameter tuple handed to `FakeTextDataGenerator.generate`.  The slots
`orientation`, `space_width`, `fit`, `stroke_width` and `stroke_fill` of the
source tuple are config passthroughs untouched by every claim and are omitted. -/
structure JobParams where
  index : ℕ
  text : String
  fonts : List String
  output_dir : String
  cursive : ℤ
  size : ℤ
  extension : String
  skew_angle : ℤ
  width : ℤ
  color : List ℤ
  margins : String
  height : ℤ
deriving DecidableEq, Repr, Inhabited

/-- Embedding of the `image_params` loop: for each `i` below the sample count,
one tuple whose color is `font_colors[i % num_colors]` and whose cursive flag
comes from `cursive_flags = [0] * total_count`. -/
def build_image_params (strings : List String) (font_paths : List String)
    (output_dir : String) (font_colors : List (List ℤ)) (r : Resolved) : List JobParams :=
  (List.range strings.length).map fun i =>
    { index := i
      text := strings.getD i ""
      fonts := font_paths
      output_dir := output_dir
      cursive := 0
      size := r.size
      extension := r.extension
      skew_angle := r.skew_angle
      width := r.width
      color := font_colors.getD (i % font_colors.length) []
      margins := r.margins
      height := r.height }

/-! ## run.py: sequential execution (`main` step 14, lines 472-490)

The renderer is an oracle from a job to `ok` or a raised exception.  The
single-process branch runs the jobs in order inside one `try` block that wraps
the whole loop; the matching `except Exception` prints the error and calls
`sys.exit(1)`. -/

/-- The sequential loop: returns the jobs that were actually started, in order,
together with the exception that escaped the loop, if any. -/
def run_sequential {α ε : Type} (gen : α → Except ε Unit) : List α → List α × Option ε
  | [] => ([], none)
  | j :: rest =>
    match gen j with
    | .ok _ =>
      let r := run_sequential gen rest
      (j :: r.1, r.2)
    | .error e => ([j], some e)

/-- Exit code of the batch: the `except Exception` handler around the loop
turns any escaped per-job exception into `sys.exit(1)`. -/
def batch_exit_code {α ε : Type} (gen : α → Except ε Unit) (jobs : List α) : ℤ :=
  match (run_sequential gen jobs).2 with
  | some _ => 1
  | none => 0

/-! ## run.py: naming policy of the RANDOM branch (`main` step 10, lines 388-416)

Only the branch selected by `corpus_type.upper() == "RANDOM"` touches
`args.name_format`; the CORPUS and dictionary branches leave it unchanged. -/

/-- The effect of step 10 on `args.name_format`:
```
if args.include_symbols or not any([args.include_letters,
                                    args.include_numbers,
                                    args.include_symbols]):
    args.name_format = 2
```
inside the `"RANDOM"` branch (name format 2 is the index-based file-naming
scheme). -/
def force_name_format (corpus_type : String)
    (include_letters include_numbers include_symbols : Bool)
    (name_format : ℤ) : ℤ :=
  if pyUpper corpus_type = "RANDOM" then
    if include_symbols || !(include_letters || include_numbers || include_symbols) then 2
    else name_format
  else name_format

/-! ## img_aug.py: the augmentation pipeline

An image is a free term recording which effects were applied to a source image
and in which order; the external Pillow operations are its constructors.  The
process-wide `random` module is an oracle `u` of successive `random.random()`
draws (each in `[0,1)`), consumed left to right; numpy's separate global
generator is a second counter `nk` whose draws name the sampled noise fields. -/

inductive PImage where
  | src : ℕ → PImage
  | blur : ℚ → PImage → PImage
  | bright : ℚ → PImage → PImage
  | contr : ℚ → PImage → PImage
  | noise : ℕ → PImage → PImage
deriving DecidableEq, Repr

structure RState where
  u : ℕ → ℚ
  k : ℕ
  nk : ℕ

/-- Embedding of `_rand_bool` (lines 23-25): `random.random() < p`, consuming
one draw. -/
def _rand_bool (p : ℚ) (s : RState) : Bool × RState :=
  (decide (s.u s.k < p), { s with k := s.k + 1 })

/-- Embedding of `random.uniform(a, b)`: CPython computes
`a + (b - a) * random()`, consuming one draw. -/
def pyUniform (a b : ℚ) (s : RState) : ℚ × RState :=
  (a + (b - a) * s.u s.k, { s with k := s.k + 1 })

/-- Embedding of `gaussian_blur` (lines 28-33): with probability `p` blur with
a radius drawn uniformly from `[0.3, 1.5]`, else pass the image through. -/
def gaussian_blur (p : ℚ) (img : PImage) (s : RState) : PImage × RState :=
  let rb := _rand_bool p s
  if rb.1 then
    let ru := pyUniform (3/10) (3/2) rb.2
    (PImage.blur ru.1 img, ru.2)
  else (img, rb.2)

/-- Embedding of `brightness` (lines 36-40): with probability `p` scale
brightness by a factor drawn uniformly from `[0.7, 1.3]`. -/
def brightness (p : ℚ) (img : PImage) (s : RState) : PImage × RState :=
  let rb := _rand_bool p s
  if rb.1 then
    let ru := pyUniform (7/10) (13/10) rb.2
    (PImage.bright ru.1 img, ru.2)
  else (img, rb.2)

/-- Embedding of `contrast` (lines 43-47): with probability `p` scale contrast
by a factor drawn uniformly from `[0.7, 1.3]`. -/
def contrast (p : ℚ) (img : PImage) (s : RState) : PImage × RState :=
  let rb := _rand_bool p s
  if rb.1 then
    let ru := pyUniform (7/10) (13/10) rb.2
    (PImage.contr ru.1 img, ru.2)
  else (img, rb.2)

/-- Embedding of `add_gaussian_noise` (lines 50-59) at the pipeline level: with
probability `p` add the noise field sampled by numpy draw `nk`. -/
def add_gaussian_noise (p : ℚ) (img : PImage) (s : RState) : PImage × RState :=
  let rb := _rand_bool p s
  if rb.1 then
    (PImage.noise rb.2.nk img, { rb.2 with nk := rb.2.nk + 1 })
  else (img, rb.2)

/-- Embedding of `apply_augmentations` (lines 66-78) with the stage
probabilities kept as parameters, exactly as the stage functions declare them. -/
def apply_augmentations_probs (p1 p2 p3 p4 : ℚ) (img : PImage) (s : RState) :
    PImage × RState :=
  let r1 := gaussian_blur p1 img s
  let r2 := brightness p2 r1.1 r1.2
  let r3 := contrast p3 r2.1 r2.2
  add_gaussian_noise p4 r3.1 r3.2

/-- `apply_augmentations` as shipped: the `_AUGS` list applies the four stages
with their default probabilities 0.25, 0.3, 0.3, 0.25. -/
def apply_augmentations (img : PImage) (s : RState) : PImage × RState :=
  apply_augmentations_probs (1/4) (3/10) (3/10) (1/4) img s

/-! ## img_aug.py: pixel-level model of `add_gaussian_noise` (lines 50-59)

`np.random.normal(0, var, arr.shape)`: numpy's second positional argument is
the *standard deviation* (`scale`), so the sampled noise has variance
`scale * scale`.  The function then computes
`np.clip(arr + noise, 0, 255).astype(np.uint8)`; the `uint8` conversion
truncates the non-negative clipped value, i.e. takes its floor.  (The
`float32` rounding of the intermediate sum is not modelled.) -/

/-- The value the source passes as numpy's `scale` argument: the default
`var = 8.0`. -/
def np_normal_scale_argument : ℚ := 8

/-- Variance of `np.random.normal(loc, scale, shape)` samples: `scale` is the
standard deviation, so the variance is its square. -/
def npNormalVariance (scale : ℚ) : ℚ := scale * scale

/-- `np.clip(x, 0, 255)`. -/
def clip255 (x : ℚ) : ℚ := max 0 (min 255 x)

/-- Per-channel effect of a firing noise stage on the flattened pixel array. -/
def add_gaussian_noise_px (px : List ℤ) (noise : List ℚ) : List ℤ :=
  (px.zip noise).map fun pr => Int.floor (clip255 ((pr.1 : ℚ) + pr.2))

/-! ## Helper lemmas -/

/-- Splitting at a separator that does not occur returns the whole string as
its single token. -/
theorem pySplitChar_of_not_mem (sep : Char) (l : List Char) (h : sep ∉ l) :
    pySplitChar sep l = [l] := by
  induction l with
  | nil => rfl
  | cons c cs ih =>
    have hc : ¬ c = sep := fun he => h (by simp [he])
    have ih2 := ih fun hm => h (List.mem_cons_of_mem _ hm)
    simp [pySplitChar, hc, ih2]

/-- A successful token-by-token conversion produces one integer per token. -/
theorem pyIntList_length (ts : List (List Char)) :
    ∀ vs, pyIntList ts = some vs → vs.length = ts.length := by
  induction ts with
  | nil =>
    intro vs h
    simp only [pyIntList, Option.some.injEq] at h
    simp [← h]
  | cons t ts ih =>
    intro vs h
    simp only [pyIntList] at h
    cases hp : pyInt t with
    | none => rw [hp] at h; exact absurd h (by simp)
    | some v =>
      rw [hp] at h
      cases hq : pyIntList ts with
      | none => rw [hq] at h; exact absurd h (by simp)
      | some ws =>
        rw [hq] at h
        simp only [Option.some.injEq] at h
        simp [← h, ih ws hq]

/-- Appending a fixed string on the left is injective. -/
theorem string_append_left_injective (p : String) :
    Function.Injective fun s => p ++ s := by
  intro a b h
  have hd : (p ++ a).data = (p ++ b).data := congrArg String.data h
  rw [String.data_append, String.data_append] at hd
  have hab : a.data = b.data := List.append_cancel_left hd
  cases a; cases b; exact congrArg String.mk hab

/-- The quick-start corpus branch touches only `corpus`, `language` and
`fonts`. -/
theorem quick_start_corpus_update_fields (exis : String → Bool) (a : Args) :
    (quick_start_corpus_update exis a).count = a.count ∧
    (quick_start_corpus_update exis a).size = a.size := by
  unfold quick_start_corpus_update
  split_ifs <;> simp

/-! ## Claim C10 -/

/-- Claim C10: for every margin string containing no comma, `parse_margins`
returns a four-element list whose entries all equal the integer value of that
string; for every comma-separated string it returns one integer per token in
token order, with no check that exactly four tokens were supplied. -/
theorem C10_parse_margins (s : String) (v : ℤ) (vs : List ℤ) :
    ((',' ∉ s.data) → pyInt s.data = some v → parse_margins s = some [v, v, v, v]) ∧
    (2 ≤ (pySplitChar ',' s.data).length →
      pyIntList (pySplitChar ',' s.data) = some vs →
      parse_margins s = some vs ∧ vs.length = (pySplitChar ',' s.data).length) := by
  constructor
  · intro hnc hv
    unfold parse_margins
    simp only [String.toList]
    rw [pySplitChar_of_not_mem ',' s.data hnc]
    simp [hv]
  · intro hlen hmap
    unfold parse_margins
    simp only [String.toList]
    rw [if_neg (by omega)]
    exact ⟨hmap, pyIntList_length _ _ hmap⟩

/-- Witness for C10 at the concrete inputs `"7"` (no comma) and
`"1,2,3,4,5"` (five tokens, accepted without an arity check). -/
theorem C10_witness :
    ((',' ∉ "7".data) ∧ pyInt "7".data = some 7 ∧
      parse_margins "7" = some [7, 7, 7, 7]) ∧
    (2 ≤ (pySplitChar ',' "1,2,3,4,5".data).length ∧
      pyIntList (pySplitChar ',' "1,2,3,4,5".data) = some [1, 2, 3, 4, 5] ∧
      parse_margins "1,2,3,4,5" = some [1, 2, 3, 4, 5] ∧
      ([1, 2, 3, 4, 5] : List ℤ).length = (pySplitChar ',' "1,2,3,4,5".data).length) :=
  ⟨⟨by decide, by decide,
      (C10_parse_margins "7" 7 []).1 (by decide) (by decide)⟩,
    ⟨by decide, by decide,
      ((C10_parse_margins "1,2,3,4,5" 0 [1, 2, 3, 4, 5]).2 (by decide) (by decide)).1,
      ((C10_parse_margins "1,2,3,4,5" 0 [1, 2, 3, 4, 5]).2 (by decide) (by decide)).2⟩⟩

/-! ## Claim C4 -/

deriving instance DecidableEq for Except

/-- Concrete filesystem for C4: one existing corpus file whose lines are all
blank after stripping. -/
def fsC4 : String → Option (List String) := fun p =>
  if p = "texts/blank.txt" then some ["", "   "] else none

/-- Counterexample to claim C4: `load_corpus` on an existing file with zero
usable lines returns `ok []` — a silent empty corpus — instead of failing with
the asset-error kind used for a missing file. -/
theorem C4_counterexample :
    load_corpus fsC4 "texts/blank.txt" = .ok [] ∧
    ¬ ∃ msg, load_corpus fsC4 "texts/blank.txt" = Except.error msg := by
  refine ⟨by decide, ?_⟩
  rintro ⟨msg, h⟩
  rw [show load_corpus fsC4 "texts/blank.txt" = .ok [] from by decide] at h
  exact Except.noConfusion h

/-- Claim C4 as amended: the corpus loader fails (with the startup asset
error) only when the file is missing; an existing file whose lines are all
blank after stripping is returned as the empty list, producing a silent empty
run rather than an error. -/
theorem C4_corpus_loader (fs : String → Option (List String)) (path : String)
    (lines : List String) :
    (fs path = none →
      load_corpus fs path = .error ("[Error] Corpus file not found: " ++ path)) ∧
    (fs path = some lines → (∀ l ∈ lines, pyStrip l = "") →
      load_corpus fs path = .ok []) := by
  constructor
  · intro h
    simp [load_corpus, h]
  · intro h hall
    simp only [load_corpus, h]
    congr 1
    rw [List.filter_eq_nil_iff]
    intro a ha
    obtain ⟨l, hl, rfl⟩ := List.mem_map.1 ha
    simp [hall l hl]

/-- Witness for C4 at the concrete blank-file filesystem. -/
theorem C4_witness :
    (fsC4 "texts/nonexistent.txt" = none ∧
      load_corpus fsC4 "texts/nonexistent.txt" =
        .error ("[Error] Corpus file not found: " ++ "texts/nonexistent.txt")) ∧
    (fsC4 "texts/blank.txt" = some ["", "   "] ∧
      (∀ l ∈ ["", "   "], pyStrip l = "") ∧
      load_corpus fsC4 "texts/blank.txt" = .ok []) :=
  ⟨⟨by decide, (C4_corpus_loader fsC4 "texts/nonexistent.txt" []).1 (by decide)⟩,
    ⟨by decide, by decide,
      (C4_corpus_loader fsC4 "texts/blank.txt" ["", "   "]).2 (by decide) (by decide)⟩⟩

/-! ## Claim C5 -/

/-- Concrete filesystem for C5: a font directory whose `os.scandir`
enumeration yields `b.ttf` before `a.ttf`. -/
def fsC5 : String → Option FsEntry := fun p =>
  if p = "fonts/d" then some (.dir [⟨"b.ttf", true⟩, ⟨"a.ttf", true⟩]) else none

/-- The same directory contents enumerated in the opposite order. -/
def fsC5p : String → Option FsEntry := fun p =>
  if p = "fonts/d" then some (.dir [⟨"a.ttf", true⟩, ⟨"b.ttf", true⟩]) else none

/-- Counterexample to claim C5: the loader returns the two font paths in
enumeration order, which is not sorted (here lexicographic order on the
character lists, the order Python `sorted` would give); enumerating the same
directory in the other order changes the result, so the order is not
deterministic in the directory contents either. -/
theorem C5_counterexample :
    load_fonts fsC5 "d" = .ok ["fonts/d/b.ttf", "fonts/d/a.ttf"] ∧
    ¬ List.Sorted (fun x y : String => x.data ≤ y.data)
        ["fonts/d/b.ttf", "fonts/d/a.ttf"] ∧
    load_fonts fsC5p "d" = .ok ["fonts/d/a.ttf", "fonts/d/b.ttf"] ∧
    (["fonts/d/b.ttf", "fonts/d/a.ttf"] : List String) ≠
      ["fonts/d/a.ttf", "fonts/d/b.ttf"] :=
  ⟨by decide, by decide, by decide, by decide⟩

/-- Claim C5 as amended: for a directory with k regular files the font loader
returns exactly k paths, unique when the child names are distinct, but in the
directory-enumeration order (`Path.glob` does not sort); a missing path or a
directory with zero regular files always exits with the asset error carrying
the attempted path. -/
theorem C5_font_loader (fs : String → Option FsEntry) (d : String)
    (children : List FsChild) :
    (fs ("fonts/" ++ d) = none →
      load_fonts fs d = .error ("[Error] Font path does not exist: " ++ d)) ∧
    (fs ("fonts/" ++ d) = some (.dir children) →
      (children.filter fun c => c.isFile) = [] →
      load_fonts fs d = .error ("[Error] No font files found in directory: " ++ d)) ∧
    (fs ("fonts/" ++ d) = some (.dir children) →
      (children.filter fun c => c.isFile) ≠ [] →
      ∃ paths, load_fonts fs d = .ok paths ∧
        paths.length = (children.filter fun c => c.isFile).length ∧
        ((children.map fun c => c.name).Nodup → paths.Nodup)) := by
  refine ⟨fun h => by simp [load_fonts, h], fun h he => ?_, fun h hne => ?_⟩
  · simp [load_fonts, h, he]
  · refine ⟨(children.filter fun c => c.isFile).map fun c => "fonts/" ++ d ++ "/" ++ c.name,
      ?_, ?_, ?_⟩
    · simp only [load_fonts, h]
      rw [if_neg (by simp [List.isEmpty_iff, hne])]
    · simp
    · intro hnames
      have hsub : List.Sublist ((children.filter fun c => c.isFile).map fun c => c.name)
          (children.map fun c => c.name) :=
        (List.filter_sublist children).map _
      have hfn : ((children.filter fun c => c.isFile).map fun c => c.name).Nodup :=
        hnames.sublist hsub
      have hinj : Function.Injective fun n : String => "fonts/" ++ d ++ "/" ++ n :=
        fun a b hab => string_append_left_injective ("fonts/" ++ d ++ "/") hab
      have := hfn.map hinj
      simpa [List.map_map, Function.comp] using this

/-- Witness for C5 at the concrete two-file directory. -/
theorem C5_witness :
    fsC5 ("fonts/" ++ "d") =
      some (.dir [⟨"b.ttf", true⟩, ⟨"a.ttf", true⟩]) ∧
    (([⟨"b.ttf", true⟩, ⟨"a.ttf", true⟩] : List FsChild).filter fun c => c.isFile) ≠ [] ∧
    ∃ paths, load_fonts fsC5 "d" = .ok paths ∧
      paths.length =
        (([⟨"b.ttf", true⟩, ⟨"a.ttf", true⟩] : List FsChild).filter fun c => c.isFile).length ∧
      ((([⟨"b.ttf", true⟩, ⟨"a.ttf", true⟩] : List FsChild).map fun c => c.name).Nodup →
        paths.Nodup) :=
  ⟨by decide, by decide,
    (C5_font_loader fsC5 "d" [⟨"b.ttf", true⟩, ⟨"a.ttf", true⟩]).2.2 (by decide) (by decide)⟩

/-! ## Claim C1 -/

/-- A base configuration with representative values. -/
def cfg0 : Config :=
  { FILE_SETTINGS := { OUTPUT_DIR := "output/images", FONTS := "ch", EXTENSION := "jpg" }
    TEXT_SETTINGS := { LANGUAGE := "ch", CORPUS := "texts/corpus.txt", SIZE := 32,
                       COLOR := "(0,0,0)", HEIGHT := 0 }
    IMAGE_FORMAT_SETTINGS := { WIDTH := 0, MARGINS := "5" }
    DISTORTION_SETTINGS := { SKEW_ANGLE := 5, RANDOM_SKEW := true }
    OTHER_SETTINGS := { COUNT := 1000, NUM_WORKERS := 4 } }

/-- The argparse namespace with nothing supplied. -/
def args0 : Args :=
  { quick_start := false, output_dir := none, language := none, corpus := none,
    count := none, fonts := none, size := none, color := none, width := none,
    height := none, extension := none, margins := none, skew_angle := none,
    no_skew := false, num_workers := none }

/-- A run requesting the quick-start preset together with the explicit
overrides `--count 500 --num_workers 8`. -/
def argsC1 : Args := { args0 with quick_start := true, count := some 500, num_workers := some 8 }

/-- Counterexample to claim C1: with the quick-start preset and an explicit
item count of 500, the effective count is the preset value 100, not the
explicitly supplied 500 — the preset overwrites the explicit override because
both live in the same argument namespace. -/
theorem C1_counterexample :
    (resolve_settings (fun _ => false) argsC1 cfg0).map Resolved.count = .ok 100 ∧
    ¬ (resolve_settings (fun _ => false) argsC1 cfg0).map Resolved.count = .ok 500 :=
  ⟨by decide, by decide⟩

/-- Claim C1 as amended: the quick-start preset is applied before the
override-application step, but it writes into the very argument namespace that
holds the explicit overrides, so for the fields the preset sets (item count,
worker count, and the sample corpus fields when sample files exist) the preset
value wins; an explicit override survives only for fields the preset does not
touch, such as the font size. -/
theorem C1_preset_beats_explicit_count (exis : String → Bool) (a : Args)
    (cfg : Config) (w v : ℤ) (hq : a.quick_start = true)
    (hw : a.num_workers = some w) (hs : a.size = some v) :
    ∃ r, resolve_settings exis a cfg = .ok r ∧ r.count = 100 ∧ r.size = v := by
  unfold resolve_settings
  simp only [hq, if_true]
  unfold apply_quick_start_settings
  simp only [hw]
  refine ⟨_, rfl, ?_, ?_⟩
  · simp [flatten_config, (quick_start_corpus_update_fields exis _).1]
  · simp [flatten_config, (quick_start_corpus_update_fields exis _).2, hs]

/-- Witness for C1 at the concrete quick-start run with `--count 500
--num_workers 8 --size 48`. -/
theorem C1_witness :
    ({ argsC1 with size := some 48 } : Args).quick_start = true ∧
    ({ argsC1 with size := some 48 } : Args).num_workers = some 8 ∧
    ({ argsC1 with size := some 48 } : Args).size = some 48 ∧
    ∃ r, resolve_settings (fun _ => false) { argsC1 with size := some 48 } cfg0 = .ok r ∧
      r.count = 100 ∧ r.size = 48 :=
  ⟨rfl, rfl, rfl,
    C1_preset_beats_explicit_count (fun _ => false) { argsC1 with size := some 48 }
      cfg0 8 48 rfl rfl rfl⟩

/-! ## Claim C2 -/

/-- A run passing both `--no_skew` and the explicit override
`--skew_angle 15`. -/
def argsC2 : Args := { args0 with no_skew := true, skew_angle := some 15 }

/-- Claim C2 fails on the code: `apply_command_line_overrides` does force the
config's skew angle to 0 and disable random skew (last, after the explicit
override), but the flattening step of `main` keeps the argparse value
`skew_angle = 15` because it is not `None`, and the job builder reads
`args.skew_angle`, so every job descriptor carries skew 15, not the forced 0. -/
theorem C2_flatten_defeats_no_skew :
    (apply_command_line_overrides argsC2 cfg0).DISTORTION_SETTINGS.SKEW_ANGLE = 0 ∧
    (apply_command_line_overrides argsC2 cfg0).DISTORTION_SETTINGS.RANDOM_SKEW = false ∧
    (resolve_settings (fun _ => false) argsC2 cfg0).map Resolved.skew_angle = .ok 15 ∧
    ((resolve_settings (fun _ => false) argsC2 cfg0).map fun r =>
        (build_image_params ["sample"] ["fonts/ch/font.ttf"] "output/images"
            [[0, 0, 0]] r).map JobParams.skew_angle) = .ok [15] ∧
    (15 : ℤ) ≠ 0 :=
  ⟨by decide, by decide, by decide, by decide, by decide⟩

/-! ## Claim C3 -/

/-- A renderer stub that fails on job 0 and succeeds elsewhere. -/
def genC3 : ℕ → Except String Unit := fun j =>
  if j = 0 then .error "render failure" else .ok ()

/-- Counterexample to claim C3: in sequential mode a failure in job 0 escapes
the loop (the `try` wraps the whole loop, not one iteration), job 1 is never
executed, and the batch exits with code 1; the failure is not recovered
locally and subsequent jobs do not run. -/
theorem C3_counterexample :
    run_sequential genC3 [0, 1] = ([0], some "render failure") ∧
    1 ∉ (run_sequential genC3 [0, 1]).1 ∧
    batch_exit_code genC3 [0, 1] = 1 :=
  ⟨by decide, by decide, by decide⟩

/-- Claim C3 as amended: in sequential mode jobs run strictly in index order
until the first failing job; its exception escapes the per-run `try` block, so
the jobs after it are not executed and the batch exits with code 1. -/
theorem C3_first_failure_aborts {α ε : Type} (gen : α → Except ε Unit)
    (pre post : List α) (j : α) (e : ε)
    (hpre : ∀ a ∈ pre, gen a = .ok ()) (hj : gen j = .error e) :
    run_sequential gen (pre ++ j :: post) = (pre ++ [j], some e) := by
  induction pre with
  | nil => simp [run_sequential, hj]
  | cons a as ih =>
    have ha : gen a = .ok () := hpre a (by simp)
    have ih2 := ih fun x hx => hpre x (by simp [hx])
    simp [run_sequential, ha, ih2]

/-- Witness for C3: a three-job sequence whose second job fails. -/
theorem C3_witness :
    (∀ a ∈ [7], genC3 a = .ok ()) ∧ genC3 0 = .error "render failure" ∧
    run_sequential genC3 ([7] ++ 0 :: [5]) = ([7] ++ [0], some "render failure") :=
  ⟨by decide, by decide,
    C3_first_failure_aborts genC3 [7] [5] 0 "render failure" (by decide) (by decide)⟩

/-! ## Claim C6 -/

/-- Claim C6: for every job sequence built by the job builder and every color
palette, the color stored in the descriptor at position i is
`palette[i mod m]`. -/
theorem C6_color_rotation (strings font_paths : List String) (output_dir : String)
    (font_colors : List (List ℤ)) (r : Resolved) (i : ℕ)
    (hm : 0 < font_colors.length)
    (hi : i < (build_image_params strings font_paths output_dir font_colors r).length) :
    ((build_image_params strings font_paths output_dir font_colors r).get ⟨i, hi⟩).color
      = font_colors.get ⟨i % font_colors.length, Nat.mod_lt i hm⟩ := by
  simp only [build_image_params, List.get_eq_getElem, List.getElem_map, List.getElem_range]
  rw [List.getD_eq_getElem _ _ (Nat.mod_lt i hm)]

/-- A concrete resolved parameter set for the C6 witness. -/
def resolved0 : Resolved :=
  { output_dir := "output/images", language := "ch", corpus := "texts/corpus.txt",
    count := 3, fonts := "ch", size := 32, color := "(0,0,0)", width := 0, height := 0,
    extension := "jpg", margins := "5", skew_angle := 5, num_workers := 1,
    random_skew := true }

/-- Witness for C6: three jobs over a two-color palette; job 2 gets
`palette[2 mod 2] = palette[0]`. -/
theorem C6_witness :
    ((build_image_params ["a", "b", "c"] ["f.ttf"] "o" [[1], [2]] resolved0).get
        ⟨2, by decide⟩).color
      = ([[1], [2]] : List (List ℤ)).get ⟨2 % 2, Nat.mod_lt 2 (by decide)⟩ :=
  C6_color_rotation ["a", "b", "c"] ["f.ttf"] "o" [[1], [2]] resolved0 2
    (by decide) (by decide)

/-! ## Claim C7 -/

/-- Claim C7: the augmentation pipeline applies exactly the four stages
Gaussian blur, brightness jitter, contrast jitter, additive Gaussian noise in
that fixed order.  With every stage probability 0 the pipeline returns the
input image unchanged; with every probability 1 each of the four effects is
applied exactly once, in the stated order (the innermost constructor is the
first stage), each reading only the previous stage's output. -/
theorem C7_pipeline (s : RState) (img : PImage)
    (h : ∀ n, 0 ≤ s.u n ∧ s.u n < 1) :
    (apply_augmentations_probs 0 0 0 0 img s).1 = img ∧
    ∃ radius fb fc j,
      (apply_augmentations_probs 1 1 1 1 img s).1 =
        PImage.noise j (PImage.contr fc (PImage.bright fb (PImage.blur radius img))) := by
  have h0 : ∀ n, ¬ s.u n < 0 := fun n => not_lt.2 (h n).1
  have h1 : ∀ n, s.u n < 1 := fun n => (h n).2
  constructor
  · simp [apply_augmentations_probs, gaussian_blur, brightness, contrast,
      add_gaussian_noise, _rand_bool, pyUniform, h0]
  · exact ⟨_, _, _, _, by
      simp only [apply_augmentations_probs, gaussian_blur, brightness, contrast,
        add_gaussian_noise, _rand_bool, pyUniform, h1, decide_eq_true_eq, if_true,
        decide_true_eq_true, if_pos]
      exact rfl⟩

/-- The concrete random stream for the C7 witness: every draw is 1/2. -/
def sC7 : RState := { u := fun _ => 1/2, k := 0, nk := 0 }

/-- Witness for C7 at the constant random stream 1/2. -/
theorem C7_witness :
    (∀ n, 0 ≤ sC7.u n ∧ sC7.u n < 1) ∧
    (apply_augmentations_probs 0 0 0 0 (PImage.src 0) sC7).1 = PImage.src 0 ∧
    ∃ radius fb fc j,
      (apply_augmentations_probs 1 1 1 1 (PImage.src 0) sC7).1 =
        PImage.noise j (PImage.contr fc (PImage.bright fb
          (PImage.blur radius (PImage.src 0)))) := by
  have h : ∀ n, 0 ≤ sC7.u n ∧ sC7.u n < 1 := fun n => by
    constructor <;> norm_num [sC7]
  exact ⟨h, (C7_pipeline sC7 (PImage.src 0) h).1, (C7_pipeline sC7 (PImage.src 0) h).2⟩

/-! ## Claim C8 -/

/-- Claim C8 against the code: the clipping half is true — every output
channel of a firing noise stage lies in [0, 255] — but the noise is *not* of
variance 8.0: the source passes `var = 8.0` as `np.random.normal`'s second
positional argument, which is the standard deviation, so the sampled noise has
variance 64, contradicting both the claim and the function's own docstring. -/
theorem C8_noise_stage (px : List ℤ) (noise : List ℚ) (x : ℤ)
    (hx : x ∈ add_gaussian_noise_px px noise) :
    (0 ≤ x ∧ x ≤ 255) ∧
    npNormalVariance np_normal_scale_argument = 64 ∧
    ¬ npNormalVariance np_normal_scale_argument = 8 := by
  refine ⟨?_, by norm_num [npNormalVariance, np_normal_scale_argument],
    by norm_num [npNormalVariance, np_normal_scale_argument]⟩
  simp only [add_gaussian_noise_px, List.mem_map] at hx
  obtain ⟨pr, _, rfl⟩ := hx
  have hlo : (0 : ℚ) ≤ clip255 ((pr.1 : ℚ) + pr.2) := le_max_left _ _
  have hhi : clip255 ((pr.1 : ℚ) + pr.2) ≤ 255 :=
    max_le (by norm_num) (min_le_left _ _)
  constructor
  · exact Int.le_floor.2 (by exact_mod_cast hlo)
  · calc Int.floor (clip255 ((pr.1 : ℚ) + pr.2)) ≤ Int.floor ((255 : ℚ)) :=
          Int.floor_le_floor hhi
      _ = 255 := by norm_num

/-- Witness for C8: pixel 10 plus noise draw 300 clips to channel value 255. -/
theorem C8_witness :
    (255 : ℤ) ∈ add_gaussian_noise_px [10] [300] ∧
    ((0 ≤ (255 : ℤ) ∧ (255 : ℤ) ≤ 255) ∧
      npNormalVariance np_normal_scale_argument = 64 ∧
      ¬ npNormalVariance np_normal_scale_argument = 8) := by
  have hm : (255 : ℤ) ∈ add_gaussian_noise_px [10] [300] := by
    simp [add_gaussian_noise_px, clip255, min_def, max_def]
    norm_num
  exact ⟨hm, C8_noise_stage [10] [300] 255 hm⟩

/-! ## Claim C9 -/

/-- Claim C9: in a run using the random text-sampling strategy, if symbols are
requested or no character class is enabled, the orchestrator forces the naming
strategy to the index-based scheme (name format 2); otherwise the naming
strategy is left unchanged. -/
theorem C9_force_name_format (corpus_type : String) (l n sym : Bool) (nf : ℤ)
    (hr : pyUpper corpus_type = "RANDOM") :
    ((sym = true ∨ (l = false ∧ n = false ∧ sym = false)) →
      force_name_format corpus_type l n sym nf = 2) ∧
    ((sym = false ∧ (l = true ∨ n = true)) →
      force_name_format corpus_type l n sym nf = nf) := by
  constructor
  · rintro (h | ⟨hl, hn, hs⟩) <;> simp [force_name_format, hr, *]
  · rintro ⟨hs, h | h⟩ <;> simp [force_name_format, hr, *]

/-- Witness for C9 at the concrete strategy tag `"random"`: symbols requested
forces format 2; letters only leaves the format unchanged. -/
theorem C9_witness :
    pyUpper "random" = "RANDOM" ∧
    force_name_format "random" true true true 1 = 2 ∧
    force_name_format "random" true false false 1 = 1 :=
  ⟨by decide,
    (C9_force_name_format "random" true true true 1 (by decide)).1 (Or.inl rfl),
    (C9_force_name_format "random" true false false 1 (by decide)).2 ⟨rfl, Or.inl rfl⟩⟩
